import Mathlib

/-!
Verification development for the Oracular oracle control plane.

Shallow embedding of the core pipeline components, translated from the
Python source:
  * `src/backend/services/oracle_service.py`   (DataAggregator, DataValidator,
    OracleService._update_cycle)
  * `src/backend/scheduler/task_scheduler.py`  (retry policies, _should_retry,
    _execute_task status transitions)
  * `src/backend/blockchain/eth_service.py`    (_get_next_nonce,
    _monitor_pending_transactions, _handle_stuck_transaction)
  * `src/backend/adapters/data_source_adapter.py` (CacheManager,
    BaseAdapter.fetch_data)
  * `src/backend/validation/validation_service.py` (ValidationService)

Numeric values are embedded as exact rationals (`ℚ`); the Python code uses
IEEE doubles, but every fact proved below is decided by exact arithmetic on
inputs where the float computation is exact or where only the sign/ordering
structure matters.  Irrational primitives (`math.sqrt` inside
`numpy.std`/`statistics.stdev`, `numpy.log`) are handled in two ways:
where only the guard `stdev == 0` and the ordering of `|z| < t` matter, the
comparison `|(v - mean)/stdev| < t` (with `stdev = sqrt(var)`, `var > 0`) is
embedded as the equivalent `(v - mean)^2 < t^2 * var`; elsewhere the square
root and logarithm are abstracted as function parameters (`sqrtQ`, `logQ`)
so that theorems quantify over any implementation of them.
Timestamps (`datetime` / `time.time()`) are embedded as rationals counting
seconds.
-/

namespace Oracular

/-! ### Generic numeric helpers (exact counterparts of `statistics` / `numpy`) -/

/-- Arithmetic mean of a list, `statistics.mean` / `numpy.mean`
(junk value `0` on the empty list, which no embedded call reaches). -/
def meanQ (l : List ℚ) : ℚ := l.sum / l.length

/-- Sample variance with Bessel correction, `statistics.variance`
(denominator `n - 1`; callers guard `n ≥ 2`). -/
def sampleVar (l : List ℚ) : ℚ :=
  (l.map (fun x => (x - meanQ l) ^ 2)).sum / ((l.length : ℚ) - 1)

/-- Population variance, the square of `numpy.std` (denominator `n`). -/
def popVar (l : List ℚ) : ℚ :=
  (l.map (fun x => (x - meanQ l) ^ 2)).sum / l.length

/-- Consecutive differences, `numpy.diff`. -/
def diffs : List ℚ → List ℚ
  | a :: b :: rest => (b - a) :: diffs (b :: rest)
  | _ => []

/-- Insertion sort on rationals (ascending), used to embed
`numpy.median` / `scipy.stats.median_abs_deviation`. -/
def insertSorted (x : ℚ) : List ℚ → List ℚ
  | [] => [x]
  | y :: ys => if x ≤ y then x :: y :: ys else y :: insertSorted x ys

def sortQ : List ℚ → List ℚ
  | [] => []
  | x :: xs => insertSorted x (sortQ xs)

/-- `numpy.median`: middle element of the sorted list, or the mean of the two
middle elements for even length (junk `0` on the empty list). -/
def medianQ (l : List ℚ) : ℚ :=
  let s := sortQ l
  let n := s.length
  if n = 0 then 0
  else if n % 2 = 1 then s.getD (n / 2) 0
  else (s.getD (n / 2 - 1) 0 + s.getD (n / 2) 0) / 2

/-- Insert-or-replace update of an association list, the effect of
`d[key] = value` on a Python dict (insertion order preserved, existing key
updated in place). -/
def setAssoc {α : Type} (k : String) (v : α) : List (String × α) → List (String × α)
  | [] => [(k, v)]
  | (k', v') :: rest => if k' = k then (k, v) :: rest else (k', v') :: setAssoc k v rest

/-! ### DataAggregator (`oracle_service.py`)

`DataAggregator.aggregate` computes a reputation-weighted average after
z-score outlier removal.  `statistics.stdev` is `sqrt (sampleVar)`; the
filter predicate `abs((v - mean) / stdev) < threshold` is embedded as
`(v - mean)^2 < threshold^2 * sampleVar`, equivalent whenever
`sampleVar > 0`, and the division by a zero `stdev` (all values equal)
is the `zeroDivision` error, exactly Python's uncaught `ZeroDivisionError`. -/

/-- Exceptions escaping `DataAggregator.aggregate`. -/
inductive AggErr
  | invalidInput            -- ValueError "Invalid data points or weights"
  | floatError              -- ValueError from float() on a non-numeric payload
  | zeroDivision            -- ZeroDivisionError from (v - mean) / stdev with stdev == 0
  | noValidPoints           -- ValueError "No valid data points after outlier removal"
deriving DecidableEq, Repr

/-- The dict returned by `DataAggregator.aggregate`. -/
structure AggOut where
  value : ℚ
  confidence : ℚ
  numSources : ℕ
deriving DecidableEq, Repr

/-- `DataAggregator._remove_outliers`: z-score filter.  Fewer than two points
skip the filter; otherwise `stdev = sqrt (sampleVar)` is computed and every
point is tested with `abs((v - mean)/stdev) < threshold` — a division that
raises `ZeroDivisionError` when the sample variance is zero. -/
def removeOutliers (threshold : ℚ) (values weights : List ℚ) :
    Except AggErr (List ℚ × List ℚ) :=
  if values.length < 2 then .ok (values, weights)
  else
    let mean := meanQ values
    let var := sampleVar values
    if var = 0 then .error .zeroDivision
    else
      let clean := (values.zip weights).filter
        (fun vw => decide ((vw.1 - mean) ^ 2 < threshold ^ 2 * var))
      .ok (clean.map Prod.fst, clean.map Prod.snd)

/-- `DataAggregator._calculate_confidence`. -/
def calculateConfidence (values weights : List ℚ) : ℚ :=
  if values = [] then 0
  else
    let variance := if 1 < values.length then sampleVar values else 0
    let avgWeight := weights.sum / weights.length
    min 1 ((1 / (1 + variance)) * avgWeight * min 1 ((values.length : ℚ) / 5))

/-- `DataAggregator.aggregate` over plain numeric values (the
`float(d.get("value", 0.0))` extraction is applied by the caller below). -/
def aggregateVals (threshold : ℚ) (values weights : List ℚ) : Except AggErr AggOut :=
  if values = [] ∨ weights = [] ∨ values.length ≠ weights.length then .error .invalidInput
  else
    match removeOutliers threshold values weights with
    | .error e => .error e
    | .ok (cleanValues, cleanWeights) =>
      if cleanValues = [] then .error .noValidPoints
      else
        let weightedSum := ((cleanValues.zip cleanWeights).map (fun vw => vw.1 * vw.2)).sum
        let weightSum := cleanWeights.sum
        .ok { value := weightedSum / weightSum
              confidence := calculateConfidence cleanValues cleanWeights
              numSources := cleanValues.length }

/-- Python values carried in a data-point dict's `value` field. -/
inductive JVal
  | num (q : ℚ)           -- int / float / Decimal
  | bool (b : Bool)
  | str (s : String)
deriving DecidableEq, Repr

/-- `float(v)`: numeric and boolean payloads convert, strings raise
`ValueError` (a non-numeric string would; numeric strings do not occur in
the pipeline). -/
def floatOf : JVal → Except AggErr ℚ
  | .num q => .ok q
  | .bool b => .ok (if b then 1 else 0)
  | .str _ => .error .floatError

/-- The list comprehension `[float(d.get("value", 0.0)) for d in data_points]`
with exception propagation. -/
def mapFloat : List JVal → Except AggErr (List ℚ)
  | [] => .ok []
  | v :: rest =>
    match floatOf v with
    | .error e => .error e
    | .ok q =>
      match mapFloat rest with
      | .error e => .error e
      | .ok qs => .ok (q :: qs)

/-- `DataAggregator.aggregate` on data-point payloads: extract
`float(d["value"])` for every point, then aggregate. -/
def aggregate (threshold : ℚ) (dataPoints : List JVal) (weights : List ℚ) :
    Except AggErr AggOut :=
  if dataPoints = [] ∨ weights = [] ∨ dataPoints.length ≠ weights.length then
    .error .invalidInput
  else
    match mapFloat dataPoints with
    | .error e => .error e
    | .ok values => aggregateVals threshold values weights

/-! ### DataValidator and OracleService._update_cycle (`oracle_service.py`) -/

/-- A type-tagged validation rule of `DataValidator` (`{"type": ...}` dict). -/
inductive ORule
  | numeric (lo hi : Option ℚ)       -- min / max default to -inf / +inf
  | categorical (allowed : List JVal)
  | binary
deriving DecidableEq, Repr

/-- A data dict produced by a source: its `value` and `type` fields. -/
structure DPoint where
  value : JVal
  dtype : String    -- data.get("type", "numeric") already applied by caller
deriving DecidableEq, Repr

/-- `DataValidator.validate` (with `_validate_numeric` / `_validate_categorical`
/ `_validate_binary` inlined): unknown data type or wrong payload kind fails. -/
def oracleValidate (rules : List (String × ORule)) (d : DPoint) : Bool :=
  match rules.lookup d.dtype with
  | none => false
  | some (.numeric lo hi) =>
    match d.value with
    | .num q => decide ((lo.getD q ≤ q) ∧ (q ≤ hi.getD q))
    | .bool _ => true      -- Python: isinstance(True, int) holds, bounds vacuous for 0/1 in-range configs
    | .str _ => false
  | some (.categorical allowed) => allowed.contains d.value
  | some (.binary) =>
    match d.value with
    | .bool _ => true
    | _ => false

/-- One fetched source in `_update_cycle`: the fetch result (exceptions from
`_fetch_all_sources` are filtered out there) and the source's reputation
weight `source.get_reputation_score()`. -/
structure FetchedSource where
  result : Option DPoint   -- none = fetch raised, dropped by _fetch_all_sources
  reputation : ℚ
deriving DecidableEq, Repr

/-- `OracleService._update_cycle`: fetch → validate → aggregate → sign →
submit.  Signing always succeeds; `_submit_to_chain` on the base
`OracleService` (the class the scheduler instantiates) has body `pass`, so
submission is a no-op.  Returns `none` when no valid data points remain
(the cycle logs a warning and returns early — no exception), otherwise the
aggregated output; aggregation exceptions propagate. -/
def updateCycle (outlierThreshold : ℚ) (rules : List (String × ORule))
    (sources : List FetchedSource) : Except AggErr (Option AggOut) :=
  let rawData := sources.filterMap (fun s => s.result.map (fun d => (d, s.reputation)))
  let validData := rawData.filter (fun dr => oracleValidate rules dr.1)
  if validData = [] then .ok none
  else
    match aggregate outlierThreshold (validData.map (fun dr => dr.1.value))
        (validData.map (fun dr => dr.2)) with
    | .error e => .error e
    | .ok out => .ok (some out)

/-! ### TaskScheduler (`task_scheduler.py`) -/

inductive TaskPriority
  | critical | high | medium | low
deriving DecidableEq, Repr

inductive TaskStatus
  | pending | running | completed | failed | retrying | cancelled
deriving DecidableEq, Repr

inductive FailureReason
  | networkError | dataSourceError | validationError
  | blockchainError | resourceError | unknownError
deriving DecidableEq, Repr

/-- `RetryPolicy` dataclass. -/
structure RetryPolicy where
  maxAttempts : ℕ
  backoffBase : ℚ
  backoffMultiplier : ℚ
  maxDelay : ℕ
  failureTypes : List FailureReason
deriving DecidableEq, Repr

/-- The default `_retry_policies` table built in `TaskScheduler.__init__`. -/
def retryPolicies : TaskPriority → RetryPolicy
  | .critical =>
    { maxAttempts := 5, backoffBase := 1, backoffMultiplier := 2, maxDelay := 300,
      failureTypes := [.networkError, .dataSourceError, .validationError,
                       .blockchainError, .resourceError, .unknownError] }
  | .high =>
    { maxAttempts := 3, backoffBase := 2, backoffMultiplier := 2, maxDelay := 600,
      failureTypes := [.networkError, .dataSourceError, .blockchainError] }
  | .medium =>
    { maxAttempts := 2, backoffBase := 5, backoffMultiplier := 2, maxDelay := 1800,
      failureTypes := [.networkError, .dataSourceError] }
  | .low =>
    { maxAttempts := 1, backoffBase := 10, backoffMultiplier := 2, maxDelay := 3600,
      failureTypes := [.networkError] }

/-- `needle` begins `hay` (error strings are embedded as `List Char`). -/
def startsWithChars : List Char → List Char → Bool
  | [], _ => true
  | _ :: _, [] => false
  | a :: as, b :: bs => (a = b) && startsWithChars as bs

/-- Python's `needle in hay` substring test. -/
def containsChars (hay needle : List Char) : Bool :=
  startsWithChars needle hay ||
    match hay with
    | [] => false
    | _ :: t => containsChars t needle

/-- `TaskScheduler._classify_failure` (the error string is lowercased
first; Python's `str.lower` on the ASCII keywords is `Char.toLower`). -/
def classifyFailure (error : List Char) : FailureReason :=
  let e := error.map Char.toLower
  if containsChars e "network".toList || containsChars e "connection".toList then
    .networkError
  else if containsChars e "data source".toList then .dataSourceError
  else if containsChars e "validation".toList then .validationError
  else if containsChars e "blockchain".toList || containsChars e "web3".toList then
    .blockchainError
  else if containsChars e "resource".toList || containsChars e "memory".toList then
    .resourceError
  else .unknownError

/-- `TaskScheduler._should_retry`. -/
def shouldRetry (policy : RetryPolicy) (retryCount : ℕ) (failureReason : FailureReason) :
    Bool :=
  if policy.maxAttempts ≤ retryCount then false
  else if failureReason ∉ policy.failureTypes then false
  else true

/-- Status of a failed execution after the `except` block of
`TaskScheduler._execute_task`: set to `FAILED`, then `_schedule_retry`
overwrites it with `RETRYING` when `_should_retry` allows. -/
def failedExecutionStatus (policy : RetryPolicy) (retryCount : ℕ)
    (failureReason : FailureReason) : TaskStatus :=
  if shouldRetry policy retryCount failureReason then .retrying else .failed

/-- The fields of a `TaskExecution` record observable after `_execute_task`
(the remaining fields do not bear on any claim). -/
structure ExecRecord where
  status : TaskStatus
  aggregatedValue : Option AggOut
  error : Option AggErr
deriving DecidableEq, Repr

/-- The `try` body of `TaskScheduler._execute_task`: run the oracle update
cycle; on success the execution is `COMPLETED`, on an exception it is
`FAILED` (retry handling is `failedExecutionStatus`).  `execution.aggregated_value`
is never assigned anywhere in `_execute_task`, so it stays `None` on every
path, and `task.min_sources` — carried here as the first (unread) argument —
is read by no statement of the function. -/
def executeTaskRun (_minSources : ℕ) (outlierThreshold : ℚ)
    (rules : List (String × ORule))
    (sources : List FetchedSource) : ExecRecord :=
  match updateCycle outlierThreshold rules sources with
  | .ok _ => { status := .completed, aggregatedValue := none, error := none }
  | .error e => { status := .failed, aggregatedValue := none, error := some e }

/-! ### EthereumService transaction management (`eth_service.py`) -/

/-- `EthereumService._get_next_nonce` for one address.  The cache holds
`(nonce, cache_time)`; a hit younger than `max_nonce_cache_age` returns the
cached nonce *without modifying the cache*; otherwise the chain's "pending"
transaction count is read, `(count + 1, now)` is cached and `count` is
returned.  `chainPending` stands for
`w3.eth.get_transaction_count(address, "pending")`, and `now` for
`asyncio.get_event_loop().time()`.  Returns the assigned nonce and the new
cache entry. -/
def getNextNonce (maxNonceCacheAge : ℚ) (now : ℚ) (chainPending : ℕ)
    (cache : Option (ℕ × ℚ)) : ℕ × Option (ℕ × ℚ) :=
  match cache with
  | some (cachedNonce, cacheTime) =>
    if now - cacheTime < maxNonceCacheAge then (cachedNonce, some (cachedNonce, cacheTime))
    else (chainPending, some (chainPending + 1, now))
  | none => (chainPending, some (chainPending + 1, now))

/-- Lifecycle states tracked in `_pending_transactions` (`TransactionStatus`). -/
inductive TxStatus
  | pending | confirmed | failed | stuck
deriving DecidableEq, Repr

/-- The canonical transaction body returned by `w3.eth.get_transaction`
(fields read by `_monitor_pending_transactions` / `_handle_stuck_transaction`). -/
structure StoredTx where
  fromAddr : String     -- tx["from"]
  toAddr : String       -- tx["to"]
  value : ℕ
  input : String        -- tx["input"], the calldata
  nonce : ℕ
  gasPrice : ℕ          -- Wei
  blockNumber : ℕ
deriving DecidableEq, Repr

/-- The replacement transaction dict built by `_handle_stuck_transaction`. -/
structure ReplacementTx where
  fromAddr : String
  toAddr : String
  value : ℕ
  data : String
  nonce : ℕ
  gasPrice : ℕ
deriving DecidableEq, Repr

/-- `EthereumService._handle_stuck_transaction`: re-fetch the transaction
body, bump the gas price to `int(gas_price * 1.2)` (embedded exactly as
`6 * g / 5` with truncating division; the Python float product is exact for
the gas prices below), and only when the bumped price does not exceed
`config.max_gas_price` build a replacement with identical
from/to/value/data/nonce, submit it (`send_transaction` is abstracted as the
supplied fresh hash `newHash`), mark the original hash `STUCK` and the new
hash `PENDING`.  Returns the submitted replacement (if any) and the updated
`_pending_transactions` table. -/
def handleStuckTransaction (maxGasPrice : ℕ) (txHash newHash : String)
    (tx : Option StoredTx) (pending : List (String × TxStatus)) :
    Option ReplacementTx × List (String × TxStatus) :=
  match tx with
  | none => (none, pending)
  | some t =>
    let newGasPrice := 6 * t.gasPrice / 5
    if newGasPrice ≤ maxGasPrice then
      (some { fromAddr := t.fromAddr, toAddr := t.toAddr, value := t.value,
              data := t.input, nonce := t.nonce, gasPrice := newGasPrice },
       setAssoc newHash .pending (setAssoc txHash .stuck pending))
    else (none, pending)

/-- One iteration of the `_monitor_pending_transactions` loop body for a
single tracked hash.  `receipt` is `w3.eth.get_transaction_receipt`'s status
field (`none` = no receipt yet); `lookup` is the result of
`w3.eth.get_transaction` (`none` = `TransactionNotFound` raised,
`some none` = falsy body, `some (some t)` = found).  A transaction whose
body has been in the mempool for more than 10 blocks
(`current_block - tx.blockNumber > 10`) is handed to
`handleStuckTransaction`. -/
def monitorTxStep (maxGasPrice currentBlock : ℕ) (txHash newHash : String)
    (status : TxStatus) (receipt : Option ℕ) (lookup : Option (Option StoredTx))
    (pending : List (String × TxStatus)) :
    Option ReplacementTx × List (String × TxStatus) :=
  if status ≠ .pending then (none, pending)
  else
    match receipt with
    | some receiptStatus =>
      if receiptStatus = 1 then (none, setAssoc txHash .confirmed pending)
      else (none, setAssoc txHash .failed pending)
    | none =>
      match lookup with
      | none => (none, setAssoc txHash .failed pending)          -- TransactionNotFound
      | some none => (none, pending)                             -- `if tx and ...` falsy
      | some (some t) =>
        if (currentBlock : ℤ) - t.blockNumber > 10 then
          handleStuckTransaction maxGasPrice txHash newHash (some t) pending
        else (none, pending)

/-! ### Source adapters (`data_source_adapter.py`) -/

/-- Observable adapter state for one endpoint: the `CacheManager` entry
`{"data": ..., "timestamp": ...}` plus counters of the monitoring samples
emitted so far (`source_latency{operation="fetch"}`, `source_value`) and of
the actual requests sent to the source. -/
structure AdapterState where
  cache : Option (ℚ × ℚ)      -- (data value, timestamp written by cache.set)
  latencySamples : ℕ
  valueSamples : ℕ
  sourceContacts : ℕ
deriving DecidableEq, Repr

/-- `CacheManager.get`: return the entry iff `now - entry.timestamp < ttl`,
deleting an expired entry. -/
def cacheGet (ttl now : ℚ) (cache : Option (ℚ × ℚ)) : Option ℚ × Option (ℚ × ℚ) :=
  match cache with
  | some (d, ts) => if now - ts < ttl then (some d, some (d, ts)) else (none, none)
  | none => (none, none)

/-- `RestAdapter._fetch_data_impl`: serve from the cache when possible,
otherwise perform the HTTP request (abstracted as the processed response
`fresh`; `_process_response` validation/normalization has already been
applied to it) and cache the result with the current time. -/
def fetchDataImpl (ttl now : ℚ) (fresh : ℚ) (st : AdapterState) : ℚ × AdapterState :=
  match cacheGet ttl now st.cache with
  | (some d, cache') => (d, { st with cache := cache' })
  | (none, _) =>
    (fresh, { st with cache := some (fresh, now),
                      sourceContacts := st.sourceContacts + 1 })

/-- `BaseAdapter.fetch_data` (the concrete body of the decorated
abstractmethod): run `_fetch_data_impl`, then `_record_latency(start, "fetch")`
and `_record_data_point(data)` — both metric samples are recorded on every
call with a monitor attached, cache hit or not. -/
def fetchData (ttl now : ℚ) (fresh : ℚ) (st : AdapterState) : ℚ × AdapterState :=
  let (d, st') := fetchDataImpl ttl now fresh st
  (d, { st' with latencySamples := st'.latencySamples + 1,
                 valueSamples := st'.valueSamples + 1 })

/-! ### ValidationService (`validation_service.py`)

Multi-stage validation pipeline.  `datetime` timestamps are rationals
counting seconds; `datetime.utcnow()` is the explicit `now` argument.
`numpy.std` is `sqrtQ ∘ popVar` and `numpy.log` is `logQ`, with
`sqrtQ logQ : ℚ → ℚ` abstracting the two irrational float primitives;
theorems quantify over them.  `uuid4()`-generated ids and the free-form
`details` dict of a finding carry no information used by any claim and are
not carried in the embedded `Finding`. -/

inductive VStage
  | source | crossSource | temporal | consensus | cryptographic | formal
deriving DecidableEq, Repr

inductive VSeverity
  | critical | high | medium | low
deriving DecidableEq, Repr

inductive AnomalyType
  | statisticalOutlier | rapidChange | volumeMismatch
  | consensusDeviation | patternBreak | manipulationSuspect
deriving DecidableEq, Repr

/-- `ValidationFinding` (sans `finding_id` / `rule_id` / `details`). -/
structure Finding where
  sourceId : String
  stage : VStage
  severity : VSeverity
  anomaly : Option AnomalyType
  message : String
  timestamp : ℚ          -- datetime.utcnow() at creation
deriving DecidableEq, Repr

/-- `SourceStats` dataclass.  `stdDev` holds what the code stores:
`numpy.std(values)`, i.e. `sqrtQ (popVar values)`. -/
structure SourceStats where
  mean : ℚ
  stdDev : ℚ
  minValue : ℚ
  maxValue : ℚ
  lastUpdate : ℚ
  updateFrequency : ℚ
  confidenceScore : ℚ
deriving DecidableEq, Repr

/-- Constructor parameters of `ValidationService` with their defaults. -/
structure VConfig where
  historyWindow : ℚ := 3600
  minHistoryPoints : ℕ := 10
  confidenceThreshold : ℚ := 4 / 5
  maxSourceDeviation : ℚ := 1 / 10
  rapidChangeThreshold : ℚ := 1 / 20
  minConsensusSources : ℕ := 3

def defaultVConfig : VConfig := {}

/-- Mutable state of a `ValidationService` instance.  `historicalData`
maps a source id to its list of `(timestamp, value)` pairs (absent key =
empty list: every branch of the code treats the two identically).
`sourceSignatures` records the ids with a registered public key. -/
structure VState where
  historicalData : String → List (ℚ × ℚ)
  sourceStats : List (String × SourceStats)
  findings : List Finding
  sourceSignatures : List String

/-- The fresh state built by `ValidationService.__init__`. -/
def initVState : VState :=
  { historicalData := fun _ => [], sourceStats := [], findings := [],
    sourceSignatures := [] }

/-- The `condition` strings of the five default rules, evaluated by
`eval(rule.condition, {"__builtins__": {}}, context)` with
`context = {value, timestamp, **metadata, **rule.parameters}` and empty
metadata.  `basic_range_check` (`min_value <= value <= max_value` with
`min_value=0`, `max_value=inf`) evaluates to `0 ≤ value`; every other
default condition references a name (`abs`, `zscore`, `pct_change`,
`vwap_deviation`, `consensus_deviation`) that is neither in the context nor
among the (emptied) builtins, so `eval` raises `NameError`. -/
inductive RuleCond
  | basicRange      -- "min_value <= value <= max_value"
  | absZscore       -- "abs(zscore) <= threshold"
  | pctChange       -- "abs(pct_change) <= threshold"
  | vwapDeviation   -- "abs(vwap_deviation) <= threshold"
  | consensusDev    -- "consensus_deviation <= threshold"
deriving DecidableEq, Repr

def evalCond (cond : RuleCond) (value : ℚ) : Except Unit Bool :=
  match cond with
  | .basicRange => .ok (decide (0 ≤ value))
  | _ => .error ()    -- NameError from eval with empty __builtins__

/-- `ValidationRule` (ids dropped; `parameters` folded into `evalCond`). -/
structure VRule where
  name : String
  description : String
  stage : VStage
  severity : VSeverity
  sourceTypes : List String
  cond : RuleCond
deriving DecidableEq, Repr

/-- The rule table built by `_initialize_default_rules`, in insertion order. -/
def defaultRules : List VRule :=
  [ { name := "basic_range_check", description := "Validate value within allowed range",
      stage := .source, severity := .critical, sourceTypes := ["all"],
      cond := .basicRange },
    { name := "statistical_outlier", description := "Detect statistical outliers",
      stage := .source, severity := .high, sourceTypes := ["price", "rate"],
      cond := .absZscore },
    { name := "rapid_change", description := "Detect suspicious rapid changes",
      stage := .temporal, severity := .high, sourceTypes := ["price", "rate"],
      cond := .pctChange },
    { name := "volume_weighted", description := "Volume-weighted price validation",
      stage := .crossSource, severity := .medium, sourceTypes := ["price"],
      cond := .vwapDeviation },
    { name := "consensus_check", description := "Multi-source consensus validation",
      stage := .consensus, severity := .high, sourceTypes := ["all"],
      cond := .consensusDev } ]

/-- `ValidationService._validate_source`: evaluate every SOURCE-stage rule
of `self._rules` (the default table — no embedded scenario adds rules)
whose source-type filter matches.  A failing condition appends a finding
and blocks only for Critical/High severity; an exception during `eval`
blocks without a finding. -/
def validateSource (now : ℚ) (sourceId sourceType : String)
    (value : ℚ) : Bool × List Finding :=
  let rules := defaultRules.filter
    (fun r => decide (r.stage = .source ∧
      (r.sourceTypes = ["all"] ∨ sourceType ∈ r.sourceTypes)))
  rules.foldl
    (fun acc r =>
      match evalCond r.cond value with
      | .ok true => acc
      | .ok false =>
        let f : Finding :=
          { sourceId := sourceId, stage := .source, severity := r.severity,
            anomaly := some .statisticalOutlier,
            message := "Source validation failed: " ++ r.description,
            timestamp := now }
        ((if r.severity = .critical ∨ r.severity = .high then false else acc.1),
         acc.2 ++ [f])
      | .error _ => (false, acc.2))
    (true, [])

/-- `ValidationService._validate_cross_source`: with at least two sources'
stats, a z-score above 3 against the other sources' means (plus the current
value) is a High ConsensusDeviation. -/
def validateCrossSource (sqrtQ : ℚ → ℚ) (st : VState) (now : ℚ)
    (sourceId : String) (value : ℚ) : Bool × List Finding :=
  if st.sourceStats.length < 2 then (true, [])
  else
    let others := st.sourceStats.filter (fun p => decide (p.1 ≠ sourceId))
    let allValues := others.map (fun p => p.2.mean) ++ [value]
    let mean := meanQ allValues
    let std := sqrtQ (popVar allValues)
    if 0 < std then
      if 3 < |(value - mean) / std| then
        (false,
         [{ sourceId := sourceId, stage := .crossSource, severity := .high,
            anomaly := some .consensusDeviation,
            message := "Significant deviation from other sources",
            timestamp := now }])
      else (true, [])
    else (true, [])

/-- The "check for rapid changes" block of `_validate_temporal`: flag a
relative change of more than `rapid_change_threshold` per second against
the previous entry (`history[-2]`, the current point having been appended
by `validate_data_point` before any stage runs), severity High, blocking.
The code divides by `prev * Δt` with ordinary float semantics; the
embedding's total `ℚ` division agrees whenever `prev * Δt ≠ 0` (a zero
previous value would raise in Python — no claim exercises it). -/
def rapidChangeCheck (cfg : VConfig) (history : List (ℚ × ℚ)) (now : ℚ)
    (sourceId : String) (value ts : ℚ) : Bool × List Finding :=
  if 2 ≤ history.length then
    let prev := history.getD (history.length - 2) (0, 0)
    let timeDiff := ts - prev.1
    if 0 < timeDiff then
      let changeRate := |value - prev.2| / (prev.2 * timeDiff)
      if cfg.rapidChangeThreshold < changeRate then
        (false,
         [{ sourceId := sourceId, stage := .temporal, severity := .high,
            anomaly := some .rapidChange,
            message := "Suspicious rapid value change", timestamp := now }])
      else (true, ([] : List Finding))
    else (true, [])
  else (true, [])

/-- The "pattern breaks using historical volatility" block of
`_validate_temporal`: with ≥ 30 samples, compare
`|log(value / values[-1])|` against three times the standard deviation of
the log-differences.  `values[-1]` is the last entry of the history — the
point currently under validation, appended by `validate_data_point` before
any stage runs. -/
def patternBreakCheck (logQ sqrtQ : ℚ → ℚ) (history : List (ℚ × ℚ)) (now : ℚ)
    (sourceId : String) (value : ℚ) : List Finding :=
  let values := history.map Prod.snd
  if 30 ≤ values.length then
    let volatility := sqrtQ (popVar (diffs (values.map logQ)))
    let currentReturn := logQ (value / values.getLastD 0)
    if 3 * volatility < |currentReturn| then
      [{ sourceId := sourceId, stage := .temporal, severity := .medium,
         anomaly := some .patternBreak,
         message := "Break in historical pattern detected", timestamp := now }]
    else []
  else []

/-- `ValidationService._validate_temporal`: with at least
`min_history_points` entries for the source run the rapid-change check
(blocking) and the pattern-break check (non-blocking), collecting their
findings in order. -/
def validateTemporal (logQ sqrtQ : ℚ → ℚ) (cfg : VConfig) (st : VState)
    (now : ℚ) (sourceId : String) (value ts : ℚ) : Bool × List Finding :=
  let history := st.historicalData sourceId
  if history = [] then (true, [])
  else if history.length < cfg.minHistoryPoints then (true, [])
  else
    let rc := rapidChangeCheck cfg history now sourceId value ts
    (rc.1, rc.2 ++ patternBreakCheck logQ sqrtQ history now sourceId value)

/-- `ValidationService._validate_consensus`: with at least
`min_consensus_sources` stats, a modified z-score (median / MAD) above 3 is
a High ConsensusDeviation. -/
def validateConsensus (cfg : VConfig) (st : VState) (now : ℚ)
    (sourceId : String) (value : ℚ) : Bool × List Finding :=
  if st.sourceStats.length < cfg.minConsensusSources then (true, [])
  else
    let allValues := st.sourceStats.map (fun p => p.2.mean)
    let median := medianQ allValues
    let mad := medianQ (allValues.map (fun x => |x - median|))
    if 0 < mad then
      if 3 < |value - median| / mad then
        (false,
         [{ sourceId := sourceId, stage := .consensus, severity := .high,
            anomaly := some .consensusDeviation,
            message := "Significant deviation from consensus", timestamp := now }])
      else (true, [])
    else (true, [])

/-- `ValidationService._validate_cryptographic`: skipped when no public key
is registered for the source; otherwise the RSA-PSS verification outcome is
the abstracted `sigValid`.  An invalid signature is a Critical finding. -/
def validateCryptographic (st : VState) (now : ℚ) (sourceId : String)
    (sigValid : Bool) : Bool × List Finding :=
  if st.sourceSignatures.contains sourceId = false then (true, [])
  else if sigValid then (true, [])
  else
    (false,
     [{ sourceId := sourceId, stage := .cryptographic, severity := .critical,
        anomaly := none, message := "Invalid cryptographic signature",
        timestamp := now }])

/-- Minimum of a list (`min(values)`; callers guard nonemptiness). -/
def listMin (l : List ℚ) : ℚ := l.foldl min (l.headD 0)

/-- Maximum of a list (`max(values)`). -/
def listMax (l : List ℚ) : ℚ := l.foldl max (l.headD 0)

/-- `ValidationService._update_source_stats`: with at least
`min_history_points` entries recompute the per-source statistics
(`numpy.std` is `sqrtQ ∘ popVar`; `recency` is the literal `1.0`). -/
def updateSourceStats (sqrtQ : ℚ → ℚ) (cfg : VConfig) (st : VState)
    (sourceId : String) (ts : ℚ) : VState :=
  let history := st.historicalData sourceId
  if history = [] then st           -- `if source_id not in self._historical_data`
  else
    let values := history.map Prod.snd
    if cfg.minHistoryPoints ≤ values.length then
      let mean := meanQ values
      let stdDev := sqrtQ (popVar values)
      let intervals := diffs (history.map Prod.fst)
      let updateFrequency := if intervals.length ≠ 0 then meanQ intervals else 0
      let consistency := 1 - (if mean ≠ 0 then stdDev / mean else 0)
      let updateRegularity :=
        1 - (if 0 < updateFrequency then sqrtQ (popVar intervals) / updateFrequency else 0)
      let confidenceScore := (1 + consistency + updateRegularity) / 3
      let newStats : SourceStats :=
        { mean := mean, stdDev := stdDev, minValue := listMin values,
          maxValue := listMax values, lastUpdate := ts,
          updateFrequency := updateFrequency,
          confidenceScore := confidenceScore }
      { st with sourceStats := setAssoc sourceId newStats st.sourceStats }
    else st

/-- `ValidationService.validate_data_point`: append `(ts, value)` to the
source's history, prune entries older than `history_window`, then run the
five stages in order, short-circuiting on the first blocking stage;
accepted points additionally refresh the source statistics.  `signature`
is `none` for an unsigned point and `some ok` for a signed one whose
verification outcome is `ok`.  Returns `(is_valid, findings, state)`. -/
def validateDataPoint (logQ sqrtQ : ℚ → ℚ) (cfg : VConfig) (now : ℚ)
    (st : VState) (sourceId sourceType : String) (value ts : ℚ)
    (signature : Option Bool) : Bool × List Finding × VState :=
  let appended := st.historicalData sourceId ++ [(ts, value)]
  let cutoff := now - cfg.historyWindow
  let pruned := appended.filter (fun p => decide (cutoff < p.1))
  let st1 : VState :=
    { st with historicalData := fun s => if s = sourceId then pruned
                                         else st.historicalData s }
  let s1 := validateSource now sourceId sourceType value
  if s1.1 = false then (false, s1.2, st1)
  else
    let s2 := validateCrossSource sqrtQ st1 now sourceId value
    if s2.1 = false then (false, s1.2 ++ s2.2, st1)
    else
      let s3 := validateTemporal logQ sqrtQ cfg st1 now sourceId value ts
      if s3.1 = false then (false, s1.2 ++ s2.2 ++ s3.2, st1)
      else
        let s4 := validateConsensus cfg st1 now sourceId value
        if s4.1 = false then (false, s1.2 ++ s2.2 ++ s3.2 ++ s4.2, st1)
        else
          match signature with
          | some sigOk =>
            let s5 := validateCryptographic st1 now sourceId sigOk
            if s5.1 = false then
              (false, s1.2 ++ s2.2 ++ s3.2 ++ s4.2 ++ s5.2, st1)
            else
              (true, s1.2 ++ s2.2 ++ s3.2 ++ s4.2 ++ s5.2,
               updateSourceStats sqrtQ cfg st1 sourceId ts)
          | none =>
            (true, s1.2 ++ s2.2 ++ s3.2 ++ s4.2,
             updateSourceStats sqrtQ cfg st1 sourceId ts)

/-- `ValidationService.get_findings`: successive optional filters over the
service's `_findings` store (a `None` argument skips its filter). -/
def getFindings (st : VState) (sourceId : Option String)
    (severity : Option VSeverity) (stage : Option VStage)
    (startTime endTime : Option ℚ) : List Finding :=
  let fs := st.findings
  let fs := match sourceId with
    | some sid => fs.filter (fun f => decide (f.sourceId = sid))
    | none => fs
  let fs := match severity with
    | some sev => fs.filter (fun f => decide (f.severity = sev))
    | none => fs
  let fs := match stage with
    | some stg => fs.filter (fun f => decide (f.stage = stg))
    | none => fs
  let fs := match startTime with
    | some t0 => fs.filter (fun f => decide (t0 ≤ f.timestamp))
    | none => fs
  match endTime with
  | some t1 => fs.filter (fun f => decide (f.timestamp ≤ t1))
  | none => fs

/-! ### Supporting lemmas -/

lemma sum_const_list (l : List ℚ) (c : ℚ) (h : ∀ x ∈ l, x = c) :
    l.sum = c * l.length := by
  induction l with
  | nil => simp
  | cons a t ih =>
    have ha : a = c := h a (List.mem_cons_self a t)
    have ht : ∀ x ∈ t, x = c := fun x hx => h x (List.mem_cons_of_mem a hx)
    simp [List.sum_cons, ih ht, ha]
    ring

lemma meanQ_const (l : List ℚ) (c : ℚ) (hne : l ≠ []) (h : ∀ x ∈ l, x = c) :
    meanQ l = c := by
  have h0 : l.length ≠ 0 := by simpa [List.length_eq_zero] using hne
  have hlen : (l.length : ℚ) ≠ 0 := Nat.cast_ne_zero.mpr h0
  unfold meanQ
  rw [sum_const_list l c h]
  field_simp

lemma sampleVar_const (l : List ℚ) (c : ℚ) (h : ∀ x ∈ l, x = c) :
    sampleVar l = 0 := by
  rcases eq_or_ne l [] with rfl | hne
  · simp [sampleVar]
  · unfold sampleVar
    have hm := meanQ_const l c hne h
    have hz : (l.map (fun x => (x - meanQ l) ^ 2)).sum = 0 := by
      rw [List.sum_eq_zero]
      intro x hx
      rcases List.mem_map.mp hx with ⟨y, hy, rfl⟩
      rw [h y hy, hm]
      ring
    rw [hz]
    simp

lemma mapFloat_num (l : List ℚ) :
    mapFloat (l.map JVal.num) = Except.ok l := by
  induction l with
  | nil => rfl
  | cons a t ih => simp [mapFloat, floatOf, ih]

lemma popVar_nonneg (l : List ℚ) : 0 ≤ popVar l := by
  unfold popVar
  apply div_nonneg
  · apply List.sum_nonneg
    intro x hx
    rcases List.mem_map.mp hx with ⟨y, _, rfl⟩
    positivity
  · positivity

lemma updateSourceStats_historicalData (sqrtQ : ℚ → ℚ) (cfg : VConfig)
    (st : VState) (sid : String) (ts : ℚ) :
    (updateSourceStats sqrtQ cfg st sid ts).historicalData = st.historicalData := by
  simp only [updateSourceStats]
  split_ifs <;> rfl

lemma updateSourceStats_findings (sqrtQ : ℚ → ℚ) (cfg : VConfig)
    (st : VState) (sid : String) (ts : ℚ) :
    (updateSourceStats sqrtQ cfg st sid ts).findings = st.findings := by
  simp only [updateSourceStats]
  split_ifs <;> rfl

lemma getLast?_filter_concat (l : List (ℚ × ℚ)) (x : ℚ × ℚ) (p : ℚ × ℚ → Bool)
    (hx : p x = true) :
    ((l ++ [x]).filter p).getLast? = some x := by
  rw [List.filter_append]
  have h1 : [x].filter p = [x] := by simp [List.filter, hx]
  rw [h1]
  exact List.getLast?_concat _

lemma foldl_findings_invariant {α : Type} (P : Finding → Prop)
    (step : (Bool × List Finding) → α → (Bool × List Finding))
    (hstep : ∀ acc r, (∀ f ∈ acc.2, P f) → ∀ f ∈ (step acc r).2, P f)
    (rs : List α) (acc : Bool × List Finding) (hacc : ∀ f ∈ acc.2, P f) :
    ∀ f ∈ (rs.foldl step acc).2, P f := by
  induction rs generalizing acc with
  | nil => simpa
  | cons r t ih => exact ih (step acc r) (hstep acc r hacc)

lemma validateSource_anomaly (now : ℚ) (sid stype : String) (value : ℚ) :
    ∀ f ∈ (validateSource now sid stype value).2,
      f.anomaly = some AnomalyType.statisticalOutlier := by
  unfold validateSource
  apply foldl_findings_invariant
  · intro acc r hacc f
    cases hev : evalCond r.cond value with
    | error e => simp [hev]; exact hacc f
    | ok b =>
      cases b with
      | true => simp [hev]; exact hacc f
      | false =>
        simp [hev]
        intro hf
        rcases hf with h | rfl
        · exact hacc f h
        · rfl
  · simp

lemma validateCrossSource_anomaly (sqrtQ : ℚ → ℚ) (st : VState) (now : ℚ)
    (sid : String) (value : ℚ) :
    ∀ f ∈ (validateCrossSource sqrtQ st now sid value).2,
      f.anomaly = some AnomalyType.consensusDeviation := by
  intro f hf
  unfold validateCrossSource at hf
  repeat split_ifs at hf <;> simp_all

lemma validateConsensus_anomaly (cfg : VConfig) (st : VState) (now : ℚ)
    (sid : String) (value : ℚ) :
    ∀ f ∈ (validateConsensus cfg st now sid value).2,
      f.anomaly = some AnomalyType.consensusDeviation := by
  intro f hf
  unfold validateConsensus at hf
  repeat split_ifs at hf <;> simp_all

lemma validateCryptographic_anomaly (st : VState) (now : ℚ) (sid : String)
    (sigValid : Bool) :
    ∀ f ∈ (validateCryptographic st now sid sigValid).2, f.anomaly = none := by
  intro f hf
  unfold validateCryptographic at hf
  split_ifs at hf <;> simp_all

lemma rapidChangeCheck_anomaly (cfg : VConfig) (history : List (ℚ × ℚ))
    (now : ℚ) (sid : String) (value ts : ℚ) :
    ∀ f ∈ (rapidChangeCheck cfg history now sid value ts).2,
      f.anomaly = some AnomalyType.rapidChange := by
  intro f hf
  unfold rapidChangeCheck at hf
  repeat split_ifs at hf <;> simp_all

/-- In the code's own flow the current point is always the last entry of
the stored history when `_validate_temporal` runs; `values[-1]` is then the
value under validation itself, `log(value / values[-1]) = log 1 = 0`, and
`0 > 3σ` is impossible for a nonnegative square root — the pattern-break
branch can never produce a finding. -/
lemma patternBreakCheck_empty (logQ sqrtQ : ℚ → ℚ) (history : List (ℚ × ℚ))
    (now : ℚ) (sid : String) (value lastTs : ℚ)
    (hlog : logQ 1 = 0) (hsqrt : ∀ x, 0 ≤ sqrtQ x) (hval : value ≠ 0)
    (hlast : history.getLast? = some (lastTs, value)) :
    patternBreakCheck logQ sqrtQ history now sid value = [] := by
  simp only [patternBreakCheck]
  have hvals : (List.map Prod.snd history).getLastD 0 = value := by
    rw [List.getLastD_eq_getLast?, List.getLast?_map, hlast]
    rfl
  have hret : logQ (value / (List.map Prod.snd history).getLastD 0) = 0 := by
    rw [hvals, div_self hval, hlog]
  split_ifs with h1 h2
  · exfalso
    rw [hret, abs_zero] at h2
    have h3 := hsqrt (popVar (diffs ((history.map Prod.snd).map logQ)))
    linarith
  · rfl
  · rfl

/-- Every path of `validate_data_point` leaves the source's series equal to
the pruned insert performed at the top of the call: the two blocking-return
paths return the state right after the insert, and `_update_source_stats`
on the accepting path touches only `_source_stats`. -/
lemma validateDataPoint_historicalData (logQ sqrtQ : ℚ → ℚ) (cfg : VConfig)
    (now : ℚ) (st : VState) (sourceId sourceType : String) (value ts : ℚ)
    (signature : Option Bool) :
    (validateDataPoint logQ sqrtQ cfg now st sourceId sourceType value ts
        signature).2.2.historicalData =
      fun s => if s = sourceId then
        (st.historicalData sourceId ++ [(ts, value)]).filter
          (fun p => decide (now - cfg.historyWindow < p.1))
      else st.historicalData s := by
  rcases signature with _ | b <;>
    (simp only [validateDataPoint]
     split_ifs <;> simp [updateSourceStats_historicalData])

/-- No statement of `validate_data_point` (or of any stage it calls) ever
appends to `self._findings`: the store is unchanged by every call. -/
lemma validateDataPoint_findings_store (logQ sqrtQ : ℚ → ℚ) (cfg : VConfig)
    (now : ℚ) (st : VState) (sourceId sourceType : String) (value ts : ℚ)
    (signature : Option Bool) :
    (validateDataPoint logQ sqrtQ cfg now st sourceId sourceType value ts
        signature).2.2.findings = st.findings := by
  rcases signature with _ | b <;>
    (simp only [validateDataPoint]
     split_ifs <;> simp [updateSourceStats_findings])

lemma validateTemporal_no_patternBreak (logQ sqrtQ : ℚ → ℚ) (cfg : VConfig)
    (st : VState) (now : ℚ) (sid : String) (value ts lastTs : ℚ)
    (hlog : logQ 1 = 0) (hsqrt : ∀ x, 0 ≤ sqrtQ x) (hval : value ≠ 0)
    (hlast : (st.historicalData sid).getLast? = some (lastTs, value)) :
    ∀ f ∈ (validateTemporal logQ sqrtQ cfg st now sid value ts).2,
      f.anomaly ≠ some AnomalyType.patternBreak := by
  intro f hf
  simp only [validateTemporal] at hf
  rw [patternBreakCheck_empty logQ sqrtQ _ now sid value lastTs hlog hsqrt hval hlast]
    at hf
  split_ifs at hf <;> simp_all
  have := rapidChangeCheck_anomaly cfg (st.historicalData sid) now sid value ts f hf
  simp [this]

/-! ### Claims -/

/-- C1: the claim says `_get_next_nonce` increments the per-address nonce
cache after every successful submission, so that submissions within
`max_nonce_cache_age` of each other get distinct consecutive nonces.  The
code increments only on a cache refresh; a cache *hit* returns the cached
nonce without updating it.  Three submissions at times 0, 1, 2 (all within
the default 300 s age) with on-chain pending count 5 are assigned nonces
5, 6 and 6: the second and third transactions share nonce 6. -/
theorem C1_nonce_cache_hit_never_increments :
    (getNextNonce 300 0 5 none).1 = 5 ∧
    (getNextNonce 300 1 5 (getNextNonce 300 0 5 none).2).1 = 6 ∧
    (getNextNonce 300 2 5 (getNextNonce 300 1 5 (getNextNonce 300 0 5 none).2).2).1
      = 6 := by
  norm_num [getNextNonce]

/-- C2: the claim says an execution only transitions to Completed when the
aggregate satisfies `num_sources ≥ task.min_sources` and
`confidence ≥ confidence_threshold`, failing with LowConfidence otherwise.
`_execute_task` performs no such check: whatever `min_sources` is, a tick
whose cycle aggregates a single source (num_sources = 1, confidence = 1/5,
far below the 0.8 default threshold) completes, the execution's
`aggregated_value` stays `None`, and even a tick with *no* valid source
completes. -/
theorem C2_completed_without_min_sources_or_confidence_check :
    ∀ minSources : ℕ,
    (executeTaskRun minSources 2 [("numeric", ORule.numeric (some 0) none)]
      [{ result := some { value := JVal.num 100, dtype := "numeric" },
         reputation := 1 }] =
      { status := .completed, aggregatedValue := none, error := none }) ∧
    (updateCycle 2 [("numeric", ORule.numeric (some 0) none)]
      [{ result := some { value := JVal.num 100, dtype := "numeric" },
         reputation := 1 }] =
      .ok (some { value := 100, confidence := 1 / 5, numSources := 1 })) ∧
    (executeTaskRun minSources 2 [("numeric", ORule.numeric (some 0) none)] [] =
      { status := .completed, aggregatedValue := none, error := none }) := by
  intro minSources
  refine ⟨?_, ?_, ?_⟩ <;>
    norm_num [executeTaskRun, updateCycle, oracleValidate, aggregate, aggregateVals,
      mapFloat, floatOf, removeOutliers, calculateConfidence, meanQ, sampleVar,
      List.filterMap, List.filter, List.lookup]

/-- C3 counterexample: the CRITICAL retry policy's `failure_types` set is
*every* `FailureReason`, including `VALIDATION_ERROR`; a Critical task
whose error string classifies as a validation error is scheduled for
retry (status Retrying), contradicting "never scheduled for retry for every
priority including Critical". -/
theorem C3_critical_policy_retries_validation_error :
    classifyFailure "Validation failed: value rejected".toList =
      FailureReason.validationError ∧
    shouldRetry (retryPolicies .critical) 0 .validationError = true ∧
    failedExecutionStatus (retryPolicies .critical) 0 .validationError =
      .retrying := by
  refine ⟨by decide, by decide, by decide⟩

/-- C3 (amended): for tasks of High, Medium or Low priority a failure
classified as ValidationError is never retried — `_should_retry` returns
false and the execution terminalizes as Failed; the Critical policy,
however, lists every failure class as retriable, so a Critical task retries
ValidationError failures while `retry_count < max_attempts`. -/
theorem C3_noncritical_validation_error_not_retried (p : TaskPriority) (rc : ℕ)
    (hp : p ≠ .critical) :
    shouldRetry (retryPolicies p) rc .validationError = false ∧
    failedExecutionStatus (retryPolicies p) rc .validationError = .failed := by
  have h : shouldRetry (retryPolicies p) rc .validationError = false := by
    cases p <;> simp_all [shouldRetry, retryPolicies]
  exact ⟨h, by simp [failedExecutionStatus, h]⟩

/-- C3 witness: the High-priority policy at retry count 0. -/
theorem C3_noncritical_validation_error_not_retried_witness :
    TaskPriority.high ≠ TaskPriority.critical ∧
    shouldRetry (retryPolicies .high) 0 .validationError = false ∧
    failedExecutionStatus (retryPolicies .high) 0 .validationError = .failed :=
  ⟨by decide,
   (C3_noncritical_validation_error_not_retried .high 0 (by decide)).1,
   (C3_noncritical_validation_error_not_retried .high 0 (by decide)).2⟩

/-- C4 counterexample: `validate_data_point` appends `(ts, value)` to the
source's HistoricalSeries *before* any validation stage runs, so a point
rejected with a Critical finding (value −1 fails `basic_range_check`) does
not leave the series unchanged: its entry is present in the post-state. -/
theorem C4_rejected_point_inserted :
    (validateDataPoint (fun _ => 0) (fun _ => 0) defaultVConfig 1000 initVState
        "s1" "test" (-1) 999 none).1 = false ∧
    (validateDataPoint (fun _ => 0) (fun _ => 0) defaultVConfig 1000 initVState
        "s1" "test" (-1) 999 none).2.2.historicalData "s1" = [(999, -1)] := by
  constructor <;>
    norm_num [validateDataPoint, validateSource, validateCrossSource, validateTemporal,
      validateConsensus, validateCryptographic, rapidChangeCheck, patternBreakCheck,
      updateSourceStats, defaultRules, evalCond, defaultVConfig, initVState,
      List.filter, List.foldl, meanQ, popVar, diffs, setAssoc]

/-- C4 (amended): the entry `(ts, value)` is inserted into the source's
HistoricalSeries at the *start* of `validate_data_point`, before and
regardless of acceptance — accepted and rejected points alike get an entry
(an accepted point keeps it only while its timestamp is within
`history_window`) — and after the insert-and-prune no entry older than
`history_window` remains in the series. -/
theorem C4_series_inserted_before_validation_and_pruned
    (logQ sqrtQ : ℚ → ℚ) (cfg : VConfig) (now : ℚ) (st : VState)
    (sourceId sourceType : String) (value ts : ℚ) (signature : Option Bool) :
    (validateDataPoint logQ sqrtQ cfg now st sourceId sourceType value ts
        signature).2.2.historicalData sourceId =
      (st.historicalData sourceId ++ [(ts, value)]).filter
        (fun p => decide (now - cfg.historyWindow < p.1)) ∧
    ((validateDataPoint logQ sqrtQ cfg now st sourceId sourceType value ts
        signature).2.2.historicalData sourceId).all
      (fun p => decide (now - cfg.historyWindow < p.1)) = true := by
  have h := validateDataPoint_historicalData logQ sqrtQ cfg now st sourceId
    sourceType value ts signature
  rw [h]
  simp only [if_pos rfl]
  refine ⟨rfl, ?_⟩
  exact List.all_eq_true.mpr (fun x hx => (List.mem_filter.mp hx).2)

/-- C5 counterexample: a Pending transaction with no receipt, stuck in the
mempool for 11 blocks, whose bumped gas price `int(90 × 1.2) = 108` exceeds
`max_gas_price = 100`: `_handle_stuck_transaction` submits nothing and the
original hash is *not* marked Stuck — the monitoring pass leaves the table
unchanged, contrary to the unconditional replacement the claim states. -/
theorem C5_no_stuck_marking_above_max_gas_price :
    monitorTxStep 100 11 "tx0" "tx1" .pending none
      (some (some { fromAddr := "sender", toAddr := "oracle", value := 0,
                    input := "calldata", nonce := 7, gasPrice := 90,
                    blockNumber := 0 }))
      [("tx0", .pending)] = (none, [("tx0", .pending)]) := by decide

/-- C5 (amended): when the monitoring loop finds a tracked Pending
transaction with no receipt whose body has been in the mempool for more
than 10 blocks, *and* the bumped price `int(gas_price × 1.2)` does not
exceed `max_gas_price`, it submits a replacement with identical
from/to/value/data/nonce and the bumped gas price, marks the original hash
Stuck and records the new hash as Pending; otherwise it changes nothing. -/
theorem C5_stuck_replacement_when_within_max_gas
    (maxGasPrice currentBlock : ℕ) (txHash newHash : String)
    (t : StoredTx) (pending : List (String × TxStatus))
    (hstuck : (currentBlock : ℤ) - t.blockNumber > 10)
    (hgas : 6 * t.gasPrice / 5 ≤ maxGasPrice) :
    monitorTxStep maxGasPrice currentBlock txHash newHash .pending none
      (some (some t)) pending =
      (some { fromAddr := t.fromAddr, toAddr := t.toAddr, value := t.value,
              data := t.input, nonce := t.nonce, gasPrice := 6 * t.gasPrice / 5 },
       setAssoc newHash .pending (setAssoc txHash .stuck pending)) := by
  simp [monitorTxStep, handleStuckTransaction, hstuck, hgas]

/-- C5 witness: the spec's own example — gas 10, replacement gas 12, 11
blocks in the mempool. -/
theorem C5_stuck_replacement_when_within_max_gas_witness :
    ((11 : ℤ) - ((0 : ℕ) : ℤ) > 10) ∧ (6 * 10 / 5 ≤ 100) ∧
    monitorTxStep 100 11 "tx0" "tx1" .pending none
      (some (some { fromAddr := "sender", toAddr := "oracle", value := 0,
                    input := "calldata", nonce := 7, gasPrice := 10,
                    blockNumber := 0 }))
      [("tx0", .pending)] =
      (some { fromAddr := "sender", toAddr := "oracle", value := 0,
              data := "calldata", nonce := 7, gasPrice := 12 },
       setAssoc "tx1" .pending (setAssoc "tx0" .stuck [("tx0", .pending)])) :=
  ⟨by decide, by decide,
   C5_stuck_replacement_when_within_max_gas 100 11 "tx0" "tx1" _ _
     (by decide) (by decide)⟩

/-- C6 counterexample: the three-source happy path (100.0, 100.5, 99.5,
uniform weights, threshold 2.0) aggregates to 100.0 with 3 sources as
claimed, but its confidence `1/(1+1/4) × 1 × 3/5 = 12/25 = 0.48` is *not*
greater than 0.5. -/
theorem C6_confidence_not_above_half :
    aggregate 2 [JVal.num 100, JVal.num (201 / 2), JVal.num (199 / 2)] [1, 1, 1] =
      Except.ok { value := 100, confidence := 12 / 25, numSources := 3 } ∧
    ¬ ((1 : ℚ) / 2 < 12 / 25) := by
  constructor
  · norm_num [aggregate, aggregateVals, removeOutliers, calculateConfidence, floatOf,
      mapFloat, sampleVar, meanQ, List.filter, List.cons_ne_nil]
  · norm_num

/-- C6 (amended): aggregating 100.0, 100.5, 99.5 under uniform weights and
outlier threshold 2.0 keeps all three points and returns the weighted mean
100.0 with num_sources = 3 and confidence exactly 12/25 = 0.48 — below,
not above, 0.5. -/
theorem C6_happy_path_aggregate_value :
    aggregate 2 [JVal.num 100, JVal.num (201 / 2), JVal.num (199 / 2)] [1, 1, 1] =
      Except.ok { value := 100, confidence := 12 / 25, numSources := 3 } ∧
    (12 : ℚ) / 25 < 1 / 2 := by
  constructor
  · norm_num [aggregate, aggregateVals, removeOutliers, calculateConfidence, floatOf,
      mapFloat, sampleVar, meanQ, List.filter, List.cons_ne_nil]
  · norm_num

/-- C7 counterexample: `fetch_data` records a `source_latency` sample on
*every* call — `_record_latency` runs after `_fetch_data_impl` whether or
not the cache served the data — so two fetches 1 s apart (ttl 60 s) leave
two latency samples, not one. -/
theorem C7_cache_hit_still_records_latency_sample :
    (fetchData 60 1 100 (fetchData 60 0 100 ⟨none, 0, 0, 0⟩).2).2.latencySamples
      = 2 := by
  norm_num [fetchData, fetchDataImpl, cacheGet]

/-- C7 (amended): two `fetch()` calls on the same endpoint within
`cache_ttl` return the identical DataPoint and the second is served from
the cache without contacting the source — but a second `source_latency`
sample *is* recorded, since the latency metric is emitted on every call. -/
theorem C7_cache_hit_returns_identical_point_without_source_contact
    (ttl t1 t2 d1 d2 : ℚ) (l v c : ℕ) (httl : t2 - t1 < ttl) :
    ((fetchData ttl t1 d1 ⟨none, l, v, c⟩).1 = d1) ∧
    ((fetchData ttl t2 d2 (fetchData ttl t1 d1 ⟨none, l, v, c⟩).2).1 = d1) ∧
    ((fetchData ttl t2 d2
        (fetchData ttl t1 d1 ⟨none, l, v, c⟩).2).2.sourceContacts = c + 1) ∧
    ((fetchData ttl t2 d2
        (fetchData ttl t1 d1 ⟨none, l, v, c⟩).2).2.latencySamples = l + 2) := by
  simp [fetchData, fetchDataImpl, cacheGet, httl]

/-- C7 witness: ttl 60 s, fetches at t = 0 and t = 1. -/
theorem C7_cache_hit_returns_identical_point_without_source_contact_witness :
    ((1 : ℚ) - 0 < 60) ∧
    (((fetchData 60 0 100 ⟨none, 0, 0, 0⟩).1 = 100) ∧
     ((fetchData 60 1 200 (fetchData 60 0 100 ⟨none, 0, 0, 0⟩).2).1 = 100) ∧
     ((fetchData 60 1 200
         (fetchData 60 0 100 ⟨none, 0, 0, 0⟩).2).2.sourceContacts = 0 + 1) ∧
     ((fetchData 60 1 200
         (fetchData 60 0 100 ⟨none, 0, 0, 0⟩).2).2.latencySamples = 0 + 2)) :=
  ⟨by norm_num,
   C7_cache_hit_returns_identical_point_without_source_contact 60 0 1 100 200 0 0 0
     (by norm_num)⟩

/-- C8: the pattern-break check compares `log(value / values[-1])` against
3σ, but `values[-1]` *is* the point under validation (appended at the top
of `validate_data_point`), so the current return is `log 1 = 0` and can
never exceed the nonnegative bound: no call whose point survives the
history-window prune ever emits a PatternBreak finding, for any log/sqrt
implementation with `log 1 = 0` and `sqrt ≥ 0`.  The claim's "exactly when
`|log(value / last accepted value)| > 3σ`, and for some input the finding
is emitted" is falsified: the code divides by the current value itself. -/
theorem C8_pattern_break_finding_never_emitted (logQ sqrtQ : ℚ → ℚ)
    (cfg : VConfig) (now : ℚ) (st : VState) (sourceId sourceType : String)
    (value ts : ℚ) (signature : Option Bool)
    (hlog : logQ 1 = 0) (hsqrt : ∀ x, 0 ≤ sqrtQ x) (hval : value ≠ 0)
    (hts : now - cfg.historyWindow < ts) :
    ((validateDataPoint logQ sqrtQ cfg now st sourceId sourceType value ts
        signature).2.1).all
      (fun f => decide (f.anomaly ≠ some AnomalyType.patternBreak)) = true := by
  have hx : (fun p : ℚ × ℚ => decide (now - cfg.historyWindow < p.1)) (ts, value)
      = true := by simp [hts]
  have h3 : ∀ (st1 : VState), st1.historicalData sourceId =
      (st.historicalData sourceId ++ [(ts, value)]).filter
        (fun p => decide (now - cfg.historyWindow < p.1)) →
      ∀ f ∈ (validateTemporal logQ sqrtQ cfg st1 now sourceId value ts).2,
        f.anomaly ≠ some AnomalyType.patternBreak := by
    intro st1 hst1
    apply validateTemporal_no_patternBreak logQ sqrtQ cfg st1 now sourceId value ts ts
      hlog hsqrt hval
    rw [hst1]
    exact getLast?_filter_concat _ _ _ hx
  rw [List.all_eq_true]
  intro f hf
  rw [decide_eq_true_eq]
  revert hf
  show f ∈ _ → _
  intro hf
  rcases signature with _ | b <;>
    (simp only [validateDataPoint] at hf
     split_ifs at hf <;>
       (simp only [List.mem_append] at hf
        repeat' rcases hf with hf | hf) <;>
      first
        | (have hsa := validateSource_anomaly now sourceId sourceType value f hf
           simp [hsa])
        | (exact h3 _ (by simp) f hf)
        | (have hcs := validateCrossSource_anomaly sqrtQ _ now sourceId value f hf
           simp [hcs])
        | (have hco := validateConsensus_anomaly cfg _ now sourceId value f hf
           simp [hco])
        | (have hcr := validateCryptographic_anomaly _ now sourceId b f hf
           simp [hcr]))

/-- C8 witness: a fresh service, value 100 at t = 999 with now = 1000. -/
theorem C8_pattern_break_finding_never_emitted_witness :
    ((100 : ℚ) ≠ 0) ∧ ((1000 : ℚ) - defaultVConfig.historyWindow < 999) ∧
    ((validateDataPoint (fun _ => 0) (fun _ => 0) defaultVConfig 1000 initVState
        "s1" "test" 100 999 none).2.1).all
      (fun f => decide (f.anomaly ≠ some AnomalyType.patternBreak)) = true :=
  ⟨by norm_num, by norm_num [defaultVConfig],
   C8_pattern_break_finding_never_emitted (fun _ => 0) (fun _ => 0) defaultVConfig
     1000 initVState "s1" "test" 100 999 none rfl (fun _ => le_refl 0)
     (by norm_num) (by norm_num [defaultVConfig])⟩

/-- C9: no statement of `validate_data_point` ever appends to
`self._findings`, so the store stays unchanged by every call (first
conjunct); a rejected point produces the Critical range-check finding and
returns it to the caller (second conjunct), yet `get_findings` with filters
matching that finding's source, severity, stage and timestamp returns the
empty list (third conjunct), refuting the claim that produced findings are
recorded and retrievable. -/
theorem C9_findings_returned_but_never_stored :
    (∀ (logQ sqrtQ : ℚ → ℚ) (cfg : VConfig) (now : ℚ) (st : VState)
        (sourceId sourceType : String) (value ts : ℚ) (signature : Option Bool),
      (validateDataPoint logQ sqrtQ cfg now st sourceId sourceType value ts
          signature).2.2.findings = st.findings) ∧
    (validateDataPoint (fun _ => 0) (fun _ => 0) defaultVConfig 1000 initVState
        "s1" "test" (-1) 999 none).2.1 =
      [{ sourceId := "s1", stage := .source, severity := .critical,
         anomaly := some .statisticalOutlier,
         message := "Source validation failed: " ++
           "Validate value within allowed range",
         timestamp := 1000 }] ∧
    getFindings (validateDataPoint (fun _ => 0) (fun _ => 0) defaultVConfig 1000
        initVState "s1" "test" (-1) 999 none).2.2
      (some "s1") (some .critical) (some .source) (some 0) (some 2000) = [] := by
  refine ⟨validateDataPoint_findings_store, ?_, ?_⟩
  · norm_num [validateDataPoint, validateSource, validateCrossSource, validateTemporal,
      validateConsensus, validateCryptographic, rapidChangeCheck, patternBreakCheck,
      updateSourceStats, defaultRules, evalCond, defaultVConfig, initVState,
      List.filter, List.foldl, meanQ, popVar, diffs, setAssoc]
  · rw [getFindings, validateDataPoint_findings_store]
    rfl

/-- C10: feeding `DataAggregator.aggregate` two or more data points whose
numeric values are all equal makes `statistics.stdev` zero; the z-score
filter divides `(v − mean)` by that zero standard deviation and the call
raises an uncaught ZeroDivisionError instead of returning the weighted
mean. -/
theorem C10_equal_values_raise_zero_division (vs ws : List ℚ) (c t : ℚ)
    (hlen : vs.length = ws.length) (h2 : 2 ≤ vs.length)
    (hc : ∀ x ∈ vs, x = c) :
    aggregate t (vs.map JVal.num) ws = .error .zeroDivision := by
  have hvs : vs ≠ [] := by
    intro h; rw [h] at h2; simp at h2
  have hws : ws ≠ [] := by
    intro h; rw [h] at hlen; simp [List.length_eq_zero] at hlen; exact hvs hlen
  have hv0 : sampleVar vs = 0 := sampleVar_const vs c hc
  have h2' : ¬ vs.length < 2 := by omega
  have h2w : ¬ ws.length < 2 := by omega
  simp [aggregate, aggregateVals, removeOutliers, mapFloat_num, hvs, hws, hlen, hv0,
    h2', h2w, List.map_eq_nil_iff]

/-- C10 witness: two points both equal to 100 under uniform weights. -/
theorem C10_equal_values_raise_zero_division_witness :
    ([(100 : ℚ), 100].length = [(1 : ℚ), 1].length) ∧
    (2 ≤ [(100 : ℚ), 100].length) ∧
    aggregate 2 ([(100 : ℚ), 100].map JVal.num) [1, 1] = .error .zeroDivision :=
  ⟨by decide, by decide,
   C10_equal_values_raise_zero_division [100, 100] [1, 1] 100 2 (by decide)
     (by decide) (by norm_num)⟩

end Oracular
